import Mathlib

/-!
Verification of the retention/funnel dashboard core
(`src/pages/rentention/app.py`).

Shallow embedding conventions:
* Calendar days in the fixed Asia/Shanghai timezone are represented by
  integers (a day number); `datetime.now(timezone)` truncated to calendar-day
  granularity becomes a parameter `today : Int`.  Asia/Shanghai has no DST,
  so `day - timedelta(days = k)` followed by `strftime("%Y-%m-%d")` is
  faithfully the integer `today - k`.
* The Elasticsearch client is an external collaborator; the per-day
  term-aggregation result is a parameter `q : Int → String → Finset ℕ`
  mapping a (day, event-name) pair to the returned set of user identifiers
  (bucket keys).  `message.userId` values are modelled as naturals.
* Python float division in the retention-rate computation is modelled as
  exact division in ℚ.
-/

namespace Dashboard

/-- A row of the retention series produced by `calculate_retention`:
the acquisition day, the rate column and the count column. -/
structure CohortPoint where
  date : Int
  retentionRate : ℚ
  retentionCount : ℕ
deriving Repr, DecidableEq

instance : Inhabited CohortPoint := ⟨{ date := 0, retentionRate := 0, retentionCount := 0 }⟩

/-- Loop body of `calculate_retention` for loop index `i` (1-based):
`day = now - timedelta(days = i + interval_days - 1)`,
`next_day = day + timedelta(days = interval_days)`,
cohort from event `"backend-sign_up"` on `day`, returning users from event
`"root"` on `next_day`, count and rate as in the source. -/
def cohortPointAt (today : Int) (q : Int → String → Finset ℕ) (interval : Int)
    (i : ℕ) : CohortPoint :=
  let day : Int := today - ((i : Int) + interval - 1)
  let next_day : Int := day + interval
  let unique_userIds : Finset ℕ := q day "backend-sign_up"
  let unique_userIds_after_interval : Finset ℕ := q next_day "root"
  let cnt : ℕ := (unique_userIds_after_interval ∩ unique_userIds).card
  { date := day
  , retentionRate :=
      if unique_userIds.Nonempty then (cnt : ℚ) / (unique_userIds.card : ℚ) else 0
  , retentionCount := cnt }

/-- Embedding of `calculate_retention(interval_days)`: the loop
`for i in range(1, 15)` appends one point per `i`, and the three columns are
reversed (`[::-1]`) before building the returned DataFrame, so the result is
the reversed list of loop-order points. -/
def calculate_retention (today : Int) (q : Int → String → Finset ℕ)
    (interval : Int) : List CohortPoint :=
  ((List.range' 1 14).map (cohortPointAt today q interval)).reverse

/-- One bucket of the `by_day` date-histogram response consumed by
`calculate_funnel`: the day key and the three nested cardinality values. -/
structure HistBucket where
  key_as_string : Int
  userId_all_value : ℕ
  userId_not_0_value : ℕ
  new_sign_up_value : ℕ
deriving Repr, DecidableEq

instance : Inhabited HistBucket :=
  ⟨{ key_as_string := 0, userId_all_value := 0, userId_not_0_value := 0
   , new_sign_up_value := 0 }⟩

/-- A row of the DataFrame returned by `calculate_funnel` after the final
column renaming. -/
structure FunnelRow where
  date : Int
  all_visitor_count : ℕ
  all_registered_count : ℕ
  all_sign_up_count : ℕ
  retention_count : ℕ
deriving Repr, DecidableEq

instance : Inhabited FunnelRow :=
  ⟨{ date := 0, all_visitor_count := 0, all_registered_count := 0
   , all_sign_up_count := 0, retention_count := 0 }⟩

/-- Row constructor used by `calculate_funnel`: the three cardinality values
of a histogram bucket are copied verbatim, and the `retention_count` column
comes from the positionally aligned cohort point. -/
def funnelRowOf (b : HistBucket) (p : CohortPoint) : FunnelRow :=
  { date := b.key_as_string
  , all_visitor_count := b.userId_all_value
  , all_registered_count := b.userId_not_0_value
  , all_sign_up_count := b.new_sign_up_value
  , retention_count := p.retentionCount }

/-- Embedding of `calculate_funnel()`.  The histogram response is a list of
buckets (one per day); one row is produced per bucket, and the assignment
`df["rentention_1d"] = calculate_retention(1)["retention_count"]` aligns the
14-entry retention column with the bucket rows by the shared default integer
index, i.e. positionally.  A bucket index beyond the retention series (never
reached in the claims, where the bucket count is at most 14) would receive a
missing value in pandas; it is modelled by the default point. -/
def calculate_funnel (buckets : List HistBucket) (today : Int)
    (q : Int → String → Finset ℕ) : List FunnelRow :=
  (List.range buckets.length).map (fun k =>
    funnelRowOf (buckets.getD k default)
      ((calculate_retention today q 1).getD k default))

/-- Date-range filter of an Elasticsearch query with a lower bound that is
inclusive (`gte`) and an upper bound that is exclusive (`lt`). -/
structure GteLtRange where
  gte : String
  lt : String
  time_zone : String
deriving Repr, DecidableEq

/-- Terms aggregation request: field name and requested bucket cap. -/
structure TermsAgg where
  field : String
  size : ℕ
deriving Repr, DecidableEq

/-- Shape of the search request issued by `get_unique_user_ids`. -/
structure UserIdsQuery where
  range : GteLtRange
  term_message_name : String
  size : ℕ
  unique_userIds_terms : TermsAgg
deriving Repr, DecidableEq

/-- Query builder of `get_unique_user_ids(date, message_name)`: the request
body sent to the client, with the `@timestamp` range, the
`message.name.keyword` term filter and the `unique_userIds` terms
aggregation. -/
def get_unique_user_ids_query (date : String) (message_name : String) :
    UserIdsQuery :=
  { range :=
      { gte := date ++ "T00:00:00"
      , lt := date ++ "T23:59:59"
      , time_zone := "+08:00" }
  , term_message_name := message_name
  , size := 0
  , unique_userIds_terms := { field := "message.userId", size := 10000 } }

/-- Response handling of `get_unique_user_ids`: from the list of term
buckets, the set of the bucket keys is returned
(`set(u["key"] for u in response)`). -/
def get_unique_user_ids_result (buckets : List ℕ) : Finset ℕ :=
  buckets.toFinset

/-- Date-range filter with both bounds inclusive (`gte` / `lte`), used by the
funnel query.  Times are in days (a `timedelta(days = k)` is the rational
`k`); `now` is the current instant, not truncated to a calendar day. -/
structure GteLteRange where
  gte : ℚ
  lte : ℚ
deriving Repr, DecidableEq

/-- Shape of the aggregation request issued by `search_funnel`. -/
structure FunnelQuery where
  range : GteLteRange
  calendar_interval : String
  time_zone : String
deriving Repr, DecidableEq

/-- Query builder of `search_funnel()`:
`end_date = datetime.now(timezone) - timedelta(days=1)`,
`start_date = end_date - timedelta(days=14 - 1)`, a closed
`gte`/`lte` range filter on `@timestamp`, and a `by_day` date histogram with
`calendar_interval = "day"` in time zone `+08:00`. -/
def search_funnel_query (now : ℚ) : FunnelQuery :=
  let end_date : ℚ := now - 1
  let start_date : ℚ := end_date - (14 - 1)
  { range := { gte := start_date, lte := end_date }
  , calendar_interval := "day"
  , time_zone := "+08:00" }

/-! ### Helper lemmas -/

/-- The retention series unfolded into its fourteen points, latest loop
iteration (earliest acquisition day) first. -/
lemma calculate_retention_explicit (t : Int) (q : Int → String → Finset ℕ)
    (n : Int) :
    calculate_retention t q n =
      [cohortPointAt t q n 14, cohortPointAt t q n 13, cohortPointAt t q n 12,
       cohortPointAt t q n 11, cohortPointAt t q n 10, cohortPointAt t q n 9,
       cohortPointAt t q n 8, cohortPointAt t q n 7, cohortPointAt t q n 6,
       cohortPointAt t q n 5, cohortPointAt t q n 4, cohortPointAt t q n 3,
       cohortPointAt t q n 2, cohortPointAt t q n 1] := by
  rfl

lemma calculate_retention_length (t : Int) (q : Int → String → Finset ℕ)
    (n : Int) : (calculate_retention t q n).length = 14 := by
  simp [calculate_retention]

lemma cohortPointAt_date (t : Int) (q : Int → String → Finset ℕ) (n : Int)
    (i : ℕ) : (cohortPointAt t q n i).date = t - ((i : Int) + n - 1) := rfl

/-- The point at chronological position `k` (0-based) is the loop iteration
`i = 14 - k`. -/
lemma calculate_retention_getD (t : Int) (q : Int → String → Finset ℕ)
    (n : Int) (k : ℕ) (hk : k < 14) :
    (calculate_retention t q n).getD k default = cohortPointAt t q n (14 - k) := by
  interval_cases k <;> rfl

/-- The point at chronological position `k`, with the loop index eliminated:
acquisition day `t - (n + 13 - k)`, returning day obtained by adding the
interval. -/
lemma calculate_retention_getD_k (t : Int) (q : Int → String → Finset ℕ)
    (n : Int) (k : ℕ) (hk : k < 14) :
    (calculate_retention t q n).getD k default =
      { date := t - (n + 13 - (k : Int))
      , retentionRate :=
          if (q (t - (n + 13 - (k : Int))) "backend-sign_up").Nonempty then
            (((q (t - (n + 13 - (k : Int)) + n) "root" ∩
                q (t - (n + 13 - (k : Int))) "backend-sign_up").card : ℚ)) /
              ((q (t - (n + 13 - (k : Int))) "backend-sign_up").card : ℚ)
          else 0
      , retentionCount :=
          (q (t - (n + 13 - (k : Int)) + n) "root" ∩
            q (t - (n + 13 - (k : Int))) "backend-sign_up").card } := by
  rw [calculate_retention_getD t q n k hk]
  have harg : ((14 - k : ℕ) : Int) + n - 1 = n + 13 - (k : Int) := by omega
  simp only [cohortPointAt, harg]

lemma calculate_funnel_length (buckets : List HistBucket) (t : Int)
    (q : Int → String → Finset ℕ) :
    (calculate_funnel buckets t q).length = buckets.length := by
  simp [calculate_funnel]

lemma calculate_funnel_getD (buckets : List HistBucket) (t : Int)
    (q : Int → String → Finset ℕ) (k : ℕ) (hk : k < buckets.length) :
    (calculate_funnel buckets t q).getD k default =
      funnelRowOf (buckets.getD k default)
        ((calculate_retention t q 1).getD k default) := by
  unfold calculate_funnel
  have hk2 : k <
      ((List.range buckets.length).map (fun k =>
        funnelRowOf (buckets.getD k default)
          ((calculate_retention t q 1).getD k default))).length := by
    simpa using hk
  rw [List.getD_eq_getElem _ _ hk2, List.getElem_map, List.getElem_range]

/-! ### Concrete gateway instances used by witnesses -/

/-- A concrete query-gateway instance: cohort `{1, 2, 3}` for the signup
event, active set `{2, 3, 4}` otherwise, on every day. -/
def qex : Int → String → Finset ℕ := fun _ e =>
  if e = "backend-sign_up" then ({1, 2, 3} : Finset ℕ) else ({2, 3, 4} : Finset ℕ)

/-- A concrete query-gateway instance that always returns the empty set,
as when no history exists for the requested day. -/
def qempty : Int → String → Finset ℕ := fun _ _ => (∅ : Finset ℕ)

/-! ### Claims -/

/-- C1: for every positive `interval_days`, `calculate_retention` returns
exactly 14 points in strictly ascending date order; the point of loop offset
`i` (position `14 - i` after the reversal) has acquisition day
`today - (i + interval_days - 1)` and intersects that day's signup cohort
with the active set of the returning day `day + interval_days`; the series
covers days `today - (interval_days + 13)` (first point) through
`today - interval_days` (last point). -/
theorem retention_series_shape (today : Int) (q : Int → String → Finset ℕ)
    (interval : Int) (hpos : 0 < interval) :
    (calculate_retention today q interval).length = 14 ∧
    ((calculate_retention today q interval).map CohortPoint.date).Sorted (· < ·) ∧
    ((calculate_retention today q interval).getD 0 default).date =
      today - (interval + 13) ∧
    ((calculate_retention today q interval).getD 13 default).date =
      today - interval ∧
    ∀ i : ℕ, 1 ≤ i → i ≤ 14 →
      ((calculate_retention today q interval).getD (14 - i) default).date =
        today - ((i : Int) + interval - 1) ∧
      ((calculate_retention today q interval).getD (14 - i) default).retentionCount =
        ((q (today - ((i : Int) + interval - 1) + interval) "root") ∩
          (q (today - ((i : Int) + interval - 1)) "backend-sign_up")).card := by
  refine ⟨calculate_retention_length _ _ _, ?_, ?_, ?_, ?_⟩
  · rw [calculate_retention_explicit]
    simp [List.sorted_cons, cohortPointAt_date]
    omega
  · rw [calculate_retention_getD_k today q interval 0 (by norm_num)]
    simp
  · rw [calculate_retention_getD_k today q interval 13 (by norm_num)]
    norm_num
  · intro i h1 h14
    have hk : 14 - i < 14 := by omega
    rw [calculate_retention_getD_k today q interval (14 - i) hk]
    have e : today - (interval + 13 - ((14 - i : ℕ) : Int)) =
        today - ((i : Int) + interval - 1) := by omega
    constructor
    · simpa using e
    · simp only [e]

/-- C1 witness: the series shape at `today = 0`, `interval_days = 1`, with
the concrete gateway `qex`. -/
theorem retention_series_shape_witness :
    0 < (1 : Int) ∧
    ((calculate_retention 0 qex 1).length = 14 ∧
     ((calculate_retention 0 qex 1).map CohortPoint.date).Sorted (· < ·) ∧
     ((calculate_retention 0 qex 1).getD 0 default).date = 0 - (1 + 13) ∧
     ((calculate_retention 0 qex 1).getD 13 default).date = 0 - 1 ∧
     ∀ i : ℕ, 1 ≤ i → i ≤ 14 →
       ((calculate_retention 0 qex 1).getD (14 - i) default).date =
         0 - ((i : Int) + 1 - 1) ∧
       ((calculate_retention 0 qex 1).getD (14 - i) default).retentionCount =
         ((qex (0 - ((i : Int) + 1 - 1) + 1) "root") ∩
           (qex (0 - ((i : Int) + 1 - 1)) "backend-sign_up")).card) :=
  ⟨by norm_num, retention_series_shape 0 qex 1 (by norm_num)⟩

/-- C2: for every point of the series, `retention_count` is the cardinality
of the intersection of the acquisition-day signup cohort with the
returning-day active set, hence at most the cohort size; when the cohort is
nonempty the rate equals `retention_count / |cohort|` exactly, and the rate
always lies in `[0, 1]`. -/
theorem retention_point_invariants (today : Int) (q : Int → String → Finset ℕ)
    (interval : Int) (k : ℕ) (hk : k < 14) :
    ((calculate_retention today q interval).getD k default).retentionCount =
      ((q (today - (interval + 13 - (k : Int))) "backend-sign_up") ∩
        (q (today - (interval + 13 - (k : Int)) + interval) "root")).card ∧
    ((calculate_retention today q interval).getD k default).retentionCount ≤
      (q (today - (interval + 13 - (k : Int))) "backend-sign_up").card ∧
    (0 < (q (today - (interval + 13 - (k : Int))) "backend-sign_up").card →
      ((calculate_retention today q interval).getD k default).retentionRate =
        (((calculate_retention today q interval).getD k default).retentionCount : ℚ) /
          ((q (today - (interval + 13 - (k : Int))) "backend-sign_up").card : ℚ)) ∧
    0 ≤ ((calculate_retention today q interval).getD k default).retentionRate ∧
    ((calculate_retention today q interval).getD k default).retentionRate ≤ 1 := by
  rw [calculate_retention_getD_k today q interval k hk]
  set A := q (today - (interval + 13 - (k : Int))) "backend-sign_up" with hA
  set B := q (today - (interval + 13 - (k : Int)) + interval) "root" with hB
  refine ⟨Finset.inter_comm B A ▸ rfl, Finset.card_le_card Finset.inter_subset_right,
    ?_, ?_, ?_⟩
  · intro hcard
    simp only [if_pos (Finset.card_pos.mp hcard)]
  · dsimp only
    split_ifs with h
    · positivity
    · exact le_refl 0
  · dsimp only
    split_ifs with h
    · rw [div_le_one (by exact_mod_cast Finset.card_pos.mpr h)]
      exact_mod_cast Finset.card_le_card Finset.inter_subset_right
    · norm_num

/-- C2 witness: the invariants at `today = 0`, `interval_days = 1`,
position `k = 0`, with the concrete gateway `qex` (cohort `{1,2,3}`,
active set `{2,3,4}`). -/
theorem retention_point_invariants_witness :
    (0 : ℕ) < 14 ∧
    (((calculate_retention 0 qex 1).getD 0 default).retentionCount =
      ((qex (0 - (1 + 13 - ((0 : ℕ) : Int))) "backend-sign_up") ∩
        (qex (0 - (1 + 13 - ((0 : ℕ) : Int)) + 1) "root")).card ∧
     ((calculate_retention 0 qex 1).getD 0 default).retentionCount ≤
      (qex (0 - (1 + 13 - ((0 : ℕ) : Int))) "backend-sign_up").card ∧
     (0 < (qex (0 - (1 + 13 - ((0 : ℕ) : Int))) "backend-sign_up").card →
      ((calculate_retention 0 qex 1).getD 0 default).retentionRate =
        (((calculate_retention 0 qex 1).getD 0 default).retentionCount : ℚ) /
          ((qex (0 - (1 + 13 - ((0 : ℕ) : Int))) "backend-sign_up").card : ℚ)) ∧
     0 ≤ ((calculate_retention 0 qex 1).getD 0 default).retentionRate ∧
     ((calculate_retention 0 qex 1).getD 0 default).retentionRate ≤ 1) :=
  ⟨by norm_num, retention_point_invariants 0 qex 1 0 (by norm_num)⟩

/-- C3: when the acquisition-day signup cohort is empty (as when the gateway
has no history for that day), the point's rate and count are both zero; no
division-by-zero occurs, the value is defined by the `else` branch. -/
theorem retention_empty_cohort (today : Int) (q : Int → String → Finset ℕ)
    (interval : Int) (k : ℕ) (hk : k < 14)
    (hempty : q (today - (interval + 13 - (k : Int))) "backend-sign_up" = ∅) :
    ((calculate_retention today q interval).getD k default).retentionRate = 0 ∧
    ((calculate_retention today q interval).getD k default).retentionCount = 0 := by
  rw [calculate_retention_getD_k today q interval k hk]
  simp [hempty]

/-- C3 witness: the all-empty gateway `qempty` (no queryable history at all,
as in the 30-day-interval boundary case) yields rate 0 and count 0 at
`today = 0`, `interval_days = 30`, position `k = 0`. -/
theorem retention_empty_cohort_witness :
    (0 : ℕ) < 14 ∧
    qempty (0 - (30 + 13 - ((0 : ℕ) : Int))) "backend-sign_up" = ∅ ∧
    (((calculate_retention 0 qempty 30).getD 0 default).retentionRate = 0 ∧
     ((calculate_retention 0 qempty 30).getD 0 default).retentionCount = 0) :=
  ⟨by norm_num, rfl, retention_empty_cohort 0 qempty 30 0 (by norm_num) rfl⟩

/-- C4: when the histogram returns exactly 14 per-day buckets (the retention
series always has 14 points), `calculate_funnel` returns exactly 14 rows and
the `retention_count` of the `k`-th row equals the `retention_count` of the
`k`-th point (chronological order) of the interval-1 retention series. -/
theorem funnel_positional_join (buckets : List HistBucket) (today : Int)
    (q : Int → String → Finset ℕ) (h14 : buckets.length = 14) :
    (calculate_funnel buckets today q).length = 14 ∧
    ∀ k : ℕ, k < 14 →
      ((calculate_funnel buckets today q).getD k default).retention_count =
        ((calculate_retention today q 1).getD k default).retentionCount := by
  refine ⟨by rw [calculate_funnel_length, h14], ?_⟩
  intro k hk
  rw [calculate_funnel_getD buckets today q k (by omega)]
  rfl

/-- A concrete 14-bucket histogram response used by the funnel witnesses. -/
def histEx : List HistBucket :=
  (List.range 14).map (fun (k : ℕ) =>
    { key_as_string := (k : Int) - 14
    , userId_all_value := 100 + k
    , userId_not_0_value := 40 + k
    , new_sign_up_value := 7 })

/-- C4 witness: the positional join at `today = 0` with gateway `qex` and the
concrete 14-bucket histogram `histEx`. -/
theorem funnel_positional_join_witness :
    histEx.length = 14 ∧
    ((calculate_funnel histEx 0 qex).length = 14 ∧
     ∀ k : ℕ, k < 14 →
       ((calculate_funnel histEx 0 qex).getD k default).retention_count =
         ((calculate_retention 0 qex 1).getD k default).retentionCount) :=
  ⟨by decide, funnel_positional_join histEx 0 qex (by decide)⟩

/-- C5: `calculate_retention` is deterministic in the current day, the
interval and the gateway results: gateways that agree on every (day, event)
pair yield identical series. -/
theorem retention_deterministic (today : Int) (interval : Int)
    (q1 q2 : Int → String → Finset ℕ) (h : ∀ d e, q1 d e = q2 d e) :
    calculate_retention today q1 interval = calculate_retention today q2 interval := by
  have hq : q1 = q2 := funext fun d => funext fun e => h d e
  rw [hq]

/-- C5 witness: determinism applied to the gateway `qex` and itself at
`today = 0`, `interval_days = 7`. -/
theorem retention_deterministic_witness :
    (∀ d e, qex d e = qex d e) ∧
    calculate_retention 0 qex 7 = calculate_retention 0 qex 7 :=
  ⟨fun _ _ => rfl, retention_deterministic 0 7 qex qex (fun _ _ => rfl)⟩

/-- C6: the per-day user-set request for `(day, event)` filters on the range
`[day T00:00:00, day T23:59:59)` — `gte` inclusive, `lt` exclusive — in time
zone `+08:00`, filters on the exact event name, requests at most 10000 term
buckets, and the result is the set of distinct bucket keys. -/
theorem user_ids_query_shape (date message_name : String) (buckets : List ℕ) :
    (get_unique_user_ids_query date message_name).range.gte =
      date ++ "T00:00:00" ∧
    (get_unique_user_ids_query date message_name).range.lt =
      date ++ "T23:59:59" ∧
    (get_unique_user_ids_query date message_name).range.time_zone = "+08:00" ∧
    (get_unique_user_ids_query date message_name).term_message_name =
      message_name ∧
    (get_unique_user_ids_query date message_name).unique_userIds_terms.size =
      10000 ∧
    (get_unique_user_ids_query date message_name).unique_userIds_terms.field =
      "message.userId" ∧
    ∀ u : ℕ, u ∈ get_unique_user_ids_result buckets ↔ u ∈ buckets := by
  refine ⟨rfl, rfl, rfl, rfl, rfl, rfl, ?_⟩
  intro u
  simp [get_unique_user_ids_result]

/-- C7: the funnel histogram request covers the closed window
`[now - 14 days, now - 1 day]` — the `lte` bound is the invocation time minus
one day, the `gte` bound is 13 days earlier — bucketed per calendar day in
time zone `+08:00`. -/
theorem funnel_query_window (now : ℚ) :
    (search_funnel_query now).range.lte = now - 1 ∧
    (search_funnel_query now).range.gte =
      (search_funnel_query now).range.lte - 13 ∧
    (search_funnel_query now).calendar_interval = "day" ∧
    (search_funnel_query now).time_zone = "+08:00" := by
  refine ⟨rfl, ?_, rfl, rfl⟩
  show now - 1 - (14 - 1) = now - 1 - 13
  norm_num

/-- C8: `calculate_funnel` copies the bucket date and the three cardinality
values of every histogram bucket into the corresponding row verbatim, with
no clamping, rounding or validation. -/
theorem funnel_counts_pass_through (buckets : List HistBucket) (today : Int)
    (q : Int → String → Finset ℕ) (k : ℕ) (hk : k < buckets.length) :
    ((calculate_funnel buckets today q).getD k default).date =
      (buckets.getD k default).key_as_string ∧
    ((calculate_funnel buckets today q).getD k default).all_visitor_count =
      (buckets.getD k default).userId_all_value ∧
    ((calculate_funnel buckets today q).getD k default).all_registered_count =
      (buckets.getD k default).userId_not_0_value ∧
    ((calculate_funnel buckets today q).getD k default).all_sign_up_count =
      (buckets.getD k default).new_sign_up_value := by
  rw [calculate_funnel_getD buckets today q k hk]
  exact ⟨rfl, rfl, rfl, rfl⟩

/-- C8 witness: a single upstream bucket whose registered count 5 exceeds its
visitor count 1 — violating the expected inequality — passes through
verbatim. -/
theorem funnel_counts_pass_through_witness :
    (0 : ℕ) <
      [({ key_as_string := -1, userId_all_value := 1, userId_not_0_value := 5
        , new_sign_up_value := 2 } : HistBucket)].length ∧
    (((calculate_funnel
        [{ key_as_string := -1, userId_all_value := 1, userId_not_0_value := 5
         , new_sign_up_value := 2 }] 0 qex).getD 0 default).date =
      (([({ key_as_string := -1, userId_all_value := 1, userId_not_0_value := 5
          , new_sign_up_value := 2 } : HistBucket)]).getD 0 default).key_as_string ∧
     ((calculate_funnel
        [{ key_as_string := -1, userId_all_value := 1, userId_not_0_value := 5
         , new_sign_up_value := 2 }] 0 qex).getD 0 default).all_visitor_count =
      (([({ key_as_string := -1, userId_all_value := 1, userId_not_0_value := 5
          , new_sign_up_value := 2 } : HistBucket)]).getD 0 default).userId_all_value ∧
     ((calculate_funnel
        [{ key_as_string := -1, userId_all_value := 1, userId_not_0_value := 5
         , new_sign_up_value := 2 }] 0 qex).getD 0 default).all_registered_count =
      (([({ key_as_string := -1, userId_all_value := 1, userId_not_0_value := 5
          , new_sign_up_value := 2 } : HistBucket)]).getD 0 default).userId_not_0_value ∧
     ((calculate_funnel
        [{ key_as_string := -1, userId_all_value := 1, userId_not_0_value := 5
         , new_sign_up_value := 2 }] 0 qex).getD 0 default).all_sign_up_count =
      (([({ key_as_string := -1, userId_all_value := 1, userId_not_0_value := 5
          , new_sign_up_value := 2 } : HistBucket)]).getD 0 default).new_sign_up_value) :=
  ⟨by decide,
   funnel_counts_pass_through
     [{ key_as_string := -1, userId_all_value := 1, userId_not_0_value := 5
      , new_sign_up_value := 2 }] 0 qex 0 (by decide)⟩

/-- C9: the retention join is purely positional and never compares dates:
for a histogram of `N` buckets with `0 < N < 14`, `calculate_funnel` returns
`N` rows whose `retention_count` values are the first `N` entries of the
14-point interval-1 series, whatever the bucket dates are. -/
theorem funnel_partial_histogram_join (buckets : List HistBucket) (today : Int)
    (q : Int → String → Finset ℕ) (h0 : 0 < buckets.length)
    (hlt : buckets.length < 14) :
    (calculate_funnel buckets today q).length = buckets.length ∧
    ∀ k : ℕ, k < buckets.length →
      ((calculate_funnel buckets today q).getD k default).retention_count =
        ((calculate_retention today q 1).getD k default).retentionCount := by
  refine ⟨calculate_funnel_length _ _ _, ?_⟩
  intro k hk
  rw [calculate_funnel_getD buckets today q k hk]
  rfl

/-- C9 witness: a 3-bucket histogram (whose dates are unrelated to the
retention window) joined with the series of gateway `qex` at `today = 0`. -/
theorem funnel_partial_histogram_join_witness :
    0 < (histEx.take 3).length ∧ (histEx.take 3).length < 14 ∧
    ((calculate_funnel (histEx.take 3) 0 qex).length = (histEx.take 3).length ∧
     ∀ k : ℕ, k < (histEx.take 3).length →
       ((calculate_funnel (histEx.take 3) 0 qex).getD k default).retention_count =
         ((calculate_retention 0 qex 1).getD k default).retentionCount) :=
  ⟨by decide, by decide,
   funnel_partial_histogram_join (histEx.take 3) 0 qex (by decide) (by decide)⟩

/-- C10: `calculate_retention` performs no validation of `interval_days`:
for any non-positive interval it still returns a 14-point series, each point
fetching the returning set on `day + interval_days ≤ day`; for interval 0
each point intersects a day's signup cohort with the same day's active
set. -/
theorem retention_no_interval_validation (today : Int)
    (q : Int → String → Finset ℕ) (interval : Int) (hnp : interval ≤ 0) :
    (calculate_retention today q interval).length = 14 ∧
    (∀ k : ℕ, k < 14 →
      ((calculate_retention today q interval).getD k default).retentionCount =
        ((q (today - (interval + 13 - (k : Int)) + interval) "root") ∩
          (q (today - (interval + 13 - (k : Int))) "backend-sign_up")).card ∧
      today - (interval + 13 - (k : Int)) + interval ≤
        today - (interval + 13 - (k : Int))) ∧
    (interval = 0 → ∀ k : ℕ, k < 14 →
      ((calculate_retention today q 0).getD k default).retentionCount =
        ((q (today - (13 - (k : Int))) "root") ∩
          (q (today - (13 - (k : Int))) "backend-sign_up")).card) := by
  refine ⟨calculate_retention_length _ _ _, ?_, ?_⟩
  · intro k hk
    rw [calculate_retention_getD_k today q interval k hk]
    exact ⟨rfl, by omega⟩
  · intro h0 k hk
    rw [calculate_retention_getD_k today q 0 k hk]
    have e2 : today - (0 + 13 - (k : Int)) = today - (13 - (k : Int)) := by omega
    simp only [e2, add_zero]

/-- C10 witness: `interval_days = 0` with gateway `qex` at `today = 0` still
yields a 14-point series with same-day intersections. -/
theorem retention_no_interval_validation_witness :
    (0 : Int) ≤ 0 ∧
    ((calculate_retention 0 qex 0).length = 14 ∧
     (∀ k : ℕ, k < 14 →
       ((calculate_retention 0 qex 0).getD k default).retentionCount =
         ((qex (0 - ((0 : Int) + 13 - (k : Int)) + 0) "root") ∩
           (qex (0 - ((0 : Int) + 13 - (k : Int))) "backend-sign_up")).card ∧
       0 - ((0 : Int) + 13 - (k : Int)) + 0 ≤ 0 - ((0 : Int) + 13 - (k : Int))) ∧
     ((0 : Int) = 0 → ∀ k : ℕ, k < 14 →
       ((calculate_retention 0 qex 0).getD k default).retentionCount =
         ((qex (0 - (13 - (k : Int))) "root") ∩
           (qex (0 - (13 - (k : Int))) "backend-sign_up")).card)) :=
  ⟨le_refl 0, retention_no_interval_validation 0 qex 0 (le_refl 0)⟩

end Dashboard
